import Mathlib

/-!
Verification development for the Sandstorm session proxy and capability-token
gateway (`shell/server/proxy.js`, `shell/packages/sandstorm-db/db.js`).

The JavaScript source is shallowly embedded: pure functions become Lean
functions, stateful loops become explicit state-passing step functions,
persisted database mutations are modelled by returning the stored record
alongside the thrown-or-returned result, and thrown `Meteor.Error`s become
`Except` errors carrying the numeric code and reason string.

Node's `crypto` SHA-256 (used by `apiHostIdHashForToken` in db.js) is
implemented concretely below, per FIPS 180-4, over `Nat` with explicit
reduction mod 2^32; it is validated against the standard test vectors.
-/

deriving instance DecidableEq for Except

namespace Sandstorm

/- ## SHA-256 (FIPS 180-4), as used by Node crypto in db.js -/

/-- Word size modulus: arithmetic in SHA-256 is mod 2^32. -/
def M32 : Nat := 4294967296

/-- Addition mod 2^32. -/
def add32 (x y : Nat) : Nat := (x + y) % M32

/-- Bitwise complement on 32-bit words. -/
def not32 (x : Nat) : Nat := Nat.xor x 4294967295

/-- Right rotation of a 32-bit word (input assumed < 2^32). -/
def rotr32 (n x : Nat) : Nat := Nat.lor (x >>> n) ((x <<< (32 - n)) % M32)

/-- The Ch function of FIPS 180-4. -/
def shaCh (x y z : Nat) : Nat := Nat.xor (Nat.land x y) (Nat.land (not32 x) z)

/-- The Maj function of FIPS 180-4. -/
def shaMaj (x y z : Nat) : Nat :=
  Nat.xor (Nat.xor (Nat.land x y) (Nat.land x z)) (Nat.land y z)

/-- The Σ0 function of FIPS 180-4. -/
def bigSigma0 (x : Nat) : Nat :=
  Nat.xor (Nat.xor (rotr32 2 x) (rotr32 13 x)) (rotr32 22 x)

/-- The Σ1 function of FIPS 180-4. -/
def bigSigma1 (x : Nat) : Nat :=
  Nat.xor (Nat.xor (rotr32 6 x) (rotr32 11 x)) (rotr32 25 x)

/-- The σ0 function of FIPS 180-4. -/
def smallSigma0 (x : Nat) : Nat :=
  Nat.xor (Nat.xor (rotr32 7 x) (rotr32 18 x)) (x >>> 3)

/-- The σ1 function of FIPS 180-4. -/
def smallSigma1 (x : Nat) : Nat :=
  Nat.xor (Nat.xor (rotr32 17 x) (rotr32 19 x)) (x >>> 10)

/-- The 64 SHA-256 round constants of FIPS 180-4 (in decimal). -/
def shaK : List Nat :=
  [1116352408, 1899447441, 3049323471, 3921009573, 961987163,
   1508970993, 2453635748, 2870763221, 3624381080, 310598401,
   607225278, 1426881987, 1925078388, 2162078206, 2614888103,
   3248222580, 3835390401, 4022224774, 264347078, 604807628,
   770255983, 1249150122, 1555081692, 1996064986, 2554220882,
   2821834349, 2952996808, 3210313671, 3336571891, 3584528711,
   113926993, 338241895, 666307205, 773529912, 1294757372,
   1396182291, 1695183700, 1986661051, 2177026350, 2456956037,
   2730485921, 2820302411, 3259730800, 3345764771, 3516065817,
   3600352804, 4094571909, 275423344, 430227734, 506948616,
   659060556, 883997877, 958139571, 1322822218, 1537002063,
   1747873779, 1955562222, 2024104815, 2227730452, 2361852424,
   2428436474, 2756734187, 3204031479, 3329325298]

/-- The eight 32-bit words of a SHA-256 hash state. -/
structure ShaState where
  w0 : Nat
  w1 : Nat
  w2 : Nat
  w3 : Nat
  w4 : Nat
  w5 : Nat
  w6 : Nat
  w7 : Nat
  deriving DecidableEq, Repr

/-- The SHA-256 initial hash value of FIPS 180-4 (in decimal). -/
def shaInit : ShaState :=
  ⟨1779033703, 3144134277, 1013904242, 2773480762,
   1359893119, 2600822924, 528734635, 1541459225⟩

/-- Next word of the message schedule, given the schedule so far in reverse
order (head = most recent word). -/
def nextScheduleWord (wrev : List Nat) : Nat :=
  add32 (add32 (smallSigma1 (wrev.getD 1 0)) (wrev.getD 6 0))
        (add32 (smallSigma0 (wrev.getD 14 0)) (wrev.getD 15 0))

/-- Extend the (reversed) message schedule by `n` words. -/
def extendSchedule : Nat → List Nat → List Nat
  | 0, wrev => wrev
  | n + 1, wrev => extendSchedule n (nextScheduleWord wrev :: wrev)

/-- The full 64-word message schedule of a 16-word block. -/
def schedule (block : List Nat) : List Nat :=
  (extendSchedule 48 block.reverse).reverse

/-- One SHA-256 compression round; `kw` is the round constant plus schedule
word pair. -/
def shaRound (s : ShaState) (kw : Nat × Nat) : ShaState :=
  let t1 := add32 (add32 (add32 s.w7 (bigSigma1 s.w4))
                         (add32 (shaCh s.w4 s.w5 s.w6) kw.1)) kw.2
  let t2 := add32 (bigSigma0 s.w0) (shaMaj s.w0 s.w1 s.w2)
  ⟨add32 t1 t2, s.w0, s.w1, s.w2, add32 s.w3 t1, s.w4, s.w5, s.w6⟩

/-- Compress one 16-word block into the running hash state. -/
def compressBlock (h : ShaState) (block : List Nat) : ShaState :=
  let s := (shaK.zip (schedule block)).foldl shaRound h
  ⟨add32 h.w0 s.w0, add32 h.w1 s.w1, add32 h.w2 s.w2, add32 h.w3 s.w3,
   add32 h.w4 s.w4, add32 h.w5 s.w5, add32 h.w6 s.w6, add32 h.w7 s.w7⟩

/-- Group bytes into 32-bit big-endian words. -/
def bytesToWords : List Nat → List Nat
  | b0 :: b1 :: b2 :: b3 :: rest =>
      (((b0 * 256 + b1) * 256 + b2) * 256 + b3) :: bytesToWords rest
  | _ => []

/-- Split a word list into 16-word blocks; structural recursion on a fuel
argument so that the kernel can evaluate it. -/
def chunk16Fuel : Nat → List Nat → List (List Nat)
  | 0, _ => []
  | _, [] => []
  | fuel + 1, w :: rest => (w :: rest.take 15) :: chunk16Fuel fuel (rest.drop 15)

/-- Split a word list into 16-word blocks. -/
def chunk16 (ws : List Nat) : List (List Nat) := chunk16Fuel ws.length ws

/-- The 8-byte big-endian encoding of a (64-bit) length in bits. -/
def lenBytes64 (n : Nat) : List Nat :=
  [(n >>> 56) % 256, (n >>> 48) % 256, (n >>> 40) % 256, (n >>> 32) % 256,
   (n >>> 24) % 256, (n >>> 16) % 256, (n >>> 8) % 256, n % 256]

/-- SHA-256 message padding: append 0x80, zeros to 56 mod 64, then the
bit length as 8 big-endian bytes. -/
def padMessage (m : List Nat) : List Nat :=
  let zeros := (64 + 56 - ((m.length + 1) % 64)) % 64
  m ++ [0x80] ++ List.replicate zeros 0 ++ lenBytes64 (m.length * 8)

/-- SHA-256 of a byte list, as the final eight-word hash state. -/
def sha256 (m : List Nat) : ShaState :=
  (chunk16 (bytesToWords (padMessage m))).foldl compressBlock shaInit

/-- Lowercase hex digit for a value below 16. -/
def hexDigitChar (n : Nat) : Char :=
  if n < 10 then Char.ofNat (48 + n) else Char.ofNat (87 + n)

/-- The 8 lowercase hex characters of a 32-bit word, most significant first. -/
def hexWord32 (n : Nat) : List Char :=
  [hexDigitChar ((n >>> 28) % 16), hexDigitChar ((n >>> 24) % 16),
   hexDigitChar ((n >>> 20) % 16), hexDigitChar ((n >>> 16) % 16),
   hexDigitChar ((n >>> 12) % 16), hexDigitChar ((n >>> 8) % 16),
   hexDigitChar ((n >>> 4) % 16), hexDigitChar (n % 16)]

/-- The 64 hex characters of a digest, as Node's `digest("hex")` emits them. -/
def hexDigestChars (s : ShaState) : List Char :=
  hexWord32 s.w0 ++ hexWord32 s.w1 ++ hexWord32 s.w2 ++ hexWord32 s.w3 ++
  hexWord32 s.w4 ++ hexWord32 s.w5 ++ hexWord32 s.w6 ++ hexWord32 s.w7

/-- The 32 raw digest bytes, big-endian within each word. -/
def digestBytes (s : ShaState) : List Nat :=
  lenBytes64 (s.w0 * M32 + s.w1) ++ lenBytes64 (s.w2 * M32 + s.w3) ++
  lenBytes64 (s.w4 * M32 + s.w5) ++ lenBytes64 (s.w6 * M32 + s.w7)

/-- UTF-8 bytes of one character (Node `Buffer.from(s, "utf8")`). -/
def utf8BytesOfChar (c : Char) : List Nat :=
  let n := c.toNat
  if n < 0x80 then [n]
  else if n < 0x800 then
    [Nat.lor 0xc0 (n >>> 6), Nat.lor 0x80 (Nat.land n 0x3f)]
  else if n < 0x10000 then
    [Nat.lor 0xe0 (n >>> 12), Nat.lor 0x80 (Nat.land (n >>> 6) 0x3f),
     Nat.lor 0x80 (Nat.land n 0x3f)]
  else
    [Nat.lor 0xf0 (n >>> 18), Nat.lor 0x80 (Nat.land (n >>> 12) 0x3f),
     Nat.lor 0x80 (Nat.land (n >>> 6) 0x3f), Nat.lor 0x80 (Nat.land n 0x3f)]

/-- UTF-8 bytes of a string. -/
def strBytes (s : String) : List Nat :=
  (s.data.map utf8BytesOfChar).flatten

/-- Hex SHA-256 digest of a string, i.e. Node's
`createHash("sha256").update(s).digest("hex")`. -/
def sha256hex (s : String) : String :=
  String.mk (hexDigestChars (sha256 (strBytes s)))

/- ## db.js: API host ids -/

/-- db.js `apiHostIdHashForToken` (server branch):
`Crypto.createHash("sha256").update("x" + token).digest("hex").slice(0, 32)`. -/
def apiHostIdHashForToken (token : String) : String :=
  String.mk ((hexDigestChars (sha256 (strBytes ("x" ++ token)))).take 32)

/-- db.js `apiHostIdForToken`: `"api-" + apiHostIdHashForToken(token)`. -/
def apiHostIdForToken (token : String) : String :=
  "api-" ++ apiHostIdHashForToken token

/-- The spec's wording of the per-token host id hash, for comparison with the
code: a double hash `hash(hash("x"+token))`, truncated to 128 bits and
hex-encoded. The inner hash yields the 32 raw digest bytes, the outer hash is
taken over those bytes, and the truncation and hex encoding are applied to the
final digest. This definition follows the spec's words, not the source. -/
def specApiHostIdHashForToken (token : String) : String :=
  String.mk
    ((hexDigestChars (sha256 (digestBytes (sha256 (strBytes ("x" ++ token)))))).take 32)

/-- The spec's wording of the full per-token host id. -/
def specApiHostIdForToken (token : String) : String :=
  "api-" ++ specApiHostIdHashForToken token

/- ## proxy.js: validateWebkey -/

/-- The `ApiTokenOwner` union variants (db.js schema comment / supervisor
capnp): the JS check is `"webkey" in apiToken.owner`. -/
inductive TokenOwner where
  | webkey
  | user
  | grain
  | child
  | clientPowerboxRequest
  deriving DecidableEq, Repr

/-- A thrown `Meteor.Error(code, reason)`. -/
structure MeteorError where
  code : Nat
  reason : String
  deriving DecidableEq, Repr

/-- The fields of an `ApiTokens` record that `validateWebkey` consults.
`objectId` and `frontendRef` model field presence; timestamps are `Nat`
milliseconds (`Date.getTime()`). -/
structure ApiTokenRec where
  revoked : Bool
  owner : Option TokenOwner
  expires : Option Nat
  expiresIfUnused : Option Nat
  objectId : Bool
  frontendRef : Bool
  deriving DecidableEq, Repr

/-- JS `apiToken.owner && !("webkey" in apiToken.owner)`. -/
def nonWebkeyOwner : Option TokenOwner → Bool
  | some TokenOwner.webkey => false
  | some _ => true
  | none => false

/-- JS `stamp && stamp.getTime() <= Date.now()`. -/
def expiredAt (stamp : Option Nat) (now : Nat) : Bool :=
  match stamp with
  | some e => decide (e ≤ now)
  | none => false

/-- The tail of `validateWebkey` (proxy.js lines 492-494): the non-webview
capability check, reached after any `expiresIfUnused` mutation. -/
def finishValidate (tok : ApiTokenRec) :
    Except MeteorError Unit × Option ApiTokenRec :=
  if tok.objectId || tok.frontendRef then
    (Except.error ⟨403, "ApiToken refers to a non-webview Capability."⟩, some tok)
  else
    (Except.ok (), some tok)

/-- proxy.js `validateWebkey(apiToken, refreshedExpiration)`. The result pairs
the thrown-or-ok outcome with the stored `ApiTokens` record after the call
(`ApiTokens.update` persistence is modelled by the returned record; `none`
means no record existed). -/
def validateWebkey (apiToken : Option ApiTokenRec)
    (refreshedExpiration : Option Nat) (now : Nat) :
    Except MeteorError Unit × Option ApiTokenRec :=
  match apiToken with
  | none => (Except.error ⟨403, "Invalid authorization token"⟩, none)
  | some tok =>
    if tok.revoked then
      (Except.error ⟨403, "Authorization token has been revoked"⟩, some tok)
    else if nonWebkeyOwner tok.owner then
      (Except.error ⟨403, "Unauthorized to open non-webkey token."⟩, some tok)
    else if expiredAt tok.expires now then
      (Except.error ⟨403, "Authorization token expired"⟩, some tok)
    else
      match tok.expiresIfUnused with
      | some eiu =>
        if eiu ≤ now then
          (Except.error ⟨403, "Authorization token expired"⟩, some tok)
        else
          match refreshedExpiration with
          | some r => finishValidate { tok with expiresIfUnused := some r }
          | none => finishValidate { tok with expiresIfUnused := none }
      | none => finishValidate tok

/- ## proxy.js: error taxonomy and the retry-once path -/

/-- Errors flowing through a Proxy request: a thrown `Meteor.Error`, a
Cap'n Proto RPC error carrying its `kjType`, or a plain JS `Error`. -/
inductive ProxyError where
  | meteorError (code : Nat) (reason : String)
  | rpcError (kjType : String) (message : String)
  | plainError (message : String)
  deriving DecidableEq, Repr

/-- Modelled from the spec: `SandstormBackend.shouldRestartGrain`'s
error-kind predicate lives in the sandstorm-backend package, which is not
under src/ (proxy.js only calls it). Spec §4.4/§7: the retriable errors are
the transient backend errors — "RPC disconnect, grain process restart" —
i.e. RPC errors whose kind signals a disconnect. -/
def retriableError : ProxyError → Bool
  | ProxyError.rpcError kjType _ => kjType == "disconnected"
  | _ => false

/-- Modelled from the spec: `SandstormBackend.shouldRestartGrain(error,
retryCount)` (not under src/) returns whether to reconnect and replay — the
error must satisfy the retriable predicate and, per the spec's "at most one
retry per request" bound, the retry counter must still be below 1. -/
def shouldRestartGrain (error : ProxyError) (retryCount : Nat) : Bool :=
  retriableError error && decide (retryCount < 1)

/-- proxy.js `Proxy.requestHandler`'s catch clause: a `Meteor.Error` is
written out with its own code; anything else becomes 500 Internal Server
Error. -/
def errorStatus : ProxyError → Nat
  | ProxyError.meteorError code _ => code
  | _ => 500

/-- proxy.js `Proxy.handleRequest(request, data, response, retryCount)`,
abstracted over the backend: `backend n` is the outcome of the n-th attempt
of the whole translated RPC exchange (context, session, verb call). On error
the catch clause runs `maybeRetryAfterError` — reconnect and replay when
`shouldRestartGrain` says so, rethrow otherwise — and the replay recurses
with `retryCount + 1`. -/
def handleRequestAttempts (backend : Nat → Except ProxyError Nat)
    (attempt retryCount : Nat) : Except ProxyError Nat :=
  match backend attempt with
  | Except.ok r => Except.ok r
  | Except.error e =>
    if h : shouldRestartGrain e retryCount = true then
      handleRequestAttempts backend (attempt + 1) (retryCount + 1)
    else
      Except.error e
termination_by 1 - retryCount
decreasing_by
  simp [shouldRestartGrain, Bool.and_eq_true, decide_eq_true_eq] at h
  omega

/-- A backend that fails its first attempt with a transient RPC disconnect
and succeeds on the replay with status 200; a concrete input for the retry
path. -/
def retryDemoBackend : Nat → Except ProxyError Nat :=
  fun attempt =>
    if attempt = 0 then
      Except.error (ProxyError.rpcError "disconnected" ("Peer disconnected."))
    else
      Except.ok 200

/- ## proxy.js: backend health-check interval -/

/-- The mutable state of the 30-second health-check interval in proxy.js:
`backendHealthy`, `disconnectCount`, plus a connection generation counter
(incremented on each reconnect) and whether `process.abort()` ran. -/
structure HealthState where
  backendHealthy : Bool
  disconnectCount : Nat
  generation : Nat
  aborted : Bool
  deriving DecidableEq, Repr

/-- State at process start: healthy, zero failures. -/
def initHealthState : HealthState :=
  ⟨true, 0, 0, false⟩

/-- One tick of the `Meteor.setInterval` body: if the previous ping went
unanswered, `if (disconnectCount++ > 2) process.abort();` else tear down and
remake the connection; then set `backendHealthy = false` and send a new
ping. -/
def healthTick (s : HealthState) : HealthState :=
  if s.aborted then s
  else if s.backendHealthy = false then
    if s.disconnectCount > 2 then
      { s with aborted := true, disconnectCount := s.disconnectCount + 1 }
    else
      { s with disconnectCount := s.disconnectCount + 1,
               generation := s.generation + 1,
               backendHealthy := false }
  else
    { s with backendHealthy := false }

/-- Whether the ping issued by the tick is answered before the next tick;
the ping's resolution callback sets `backendHealthy = true`. -/
def pingOutcome (s : HealthState) (answered : Bool) : HealthState :=
  if s.aborted then s
  else if answered then { s with backendHealthy := true }
  else s

/-- One 30-second period: the interval tick followed by the ping either
resolving or staying silent. -/
def healthStep (s : HealthState) (answered : Bool) : HealthState :=
  pingOutcome (healthTick s) answered

/-- The run in which the backend never answers any ping, `n` periods in. -/
def healthRunSilent : Nat → HealthState
  | 0 => initHealthState
  | n + 1 => healthStep (healthRunSilent n) false

/- ## proxy.js: ApiSessionProxies (double-bucket API proxy cache) -/

/-- What the sweep observes of a cached API proxy: an identity and how many
entries its `websockets` set currently holds. -/
structure ApiProxy where
  pid : Nat
  websocketCount : Nat
  deriving DecidableEq, Repr

/-- Two-level bucket key: (hashed token, hashed `ApiSession.Params`). The
JS nested objects are flattened to association lists on the pair key. -/
abbrev CacheKey := String × String

/-- One bucket: an association list from keys to proxies. -/
abbrev Bucket := List (CacheKey × ApiProxy)

/-- JS `bucket[t] && bucket[t][p]`: look the key up (keys are unique in the
JS objects, so first match is the match). -/
def bucketGet : Bucket → CacheKey → Option ApiProxy
  | [], _ => none
  | kv :: rest, k => if kv.1 = k then some kv.2 else bucketGet rest k

/-- JS `bucket[t][p] = proxy`: replace the binding if the key is present,
append it otherwise. -/
def bucketPut (b : Bucket) (k : CacheKey) (p : ApiProxy) : Bucket :=
  if (bucketGet b k).isSome then
    b.map (fun kv => if kv.1 = k then (k, p) else kv)
  else
    b ++ [(k, p)]

/-- The loop body of the sweep in the `ApiSessionProxies` constructor:
walk the old bucket; for an entry with no same-key proxy in the new bucket,
re-`put` it into the new bucket if it has live websockets, close it
otherwise; entries shadowed by a same-key new-bucket proxy are skipped. -/
def sweepGo : Bucket → Bucket → List ApiProxy → Bucket × List ApiProxy
  | [], newB, closed => (newB, closed)
  | kv :: rest, newB, closed =>
    match bucketGet newB kv.1 with
    | some _ => sweepGo rest newB closed
    | none =>
      if kv.2.websocketCount > 0 then
        sweepGo rest (bucketPut newB kv.1 kv.2) closed
      else
        sweepGo rest newB (closed ++ [kv.2])

/-- The two buckets of `ApiSessionProxies`. -/
structure ApiCache where
  newBucket : Bucket
  oldBucket : Bucket
  deriving DecidableEq, Repr

/-- One sweep of the interval in the `ApiSessionProxies` constructor:
process the old bucket, then `oldBucket = newBucket; newBucket = {}`.
Returns the cache afterwards and the list of proxies that were closed. -/
def sweepCache (c : ApiCache) : ApiCache × List ApiProxy :=
  let r := sweepGo c.oldBucket c.newBucket []
  (⟨[], r.1⟩, r.2)

/-- Cache membership as `get` would see it (new bucket first, then old),
without the promotion side effect. -/
def cacheFind (c : ApiCache) (k : CacheKey) : Option ApiProxy :=
  match bucketGet c.newBucket k with
  | some p => some p
  | none => bucketGet c.oldBucket k

/-- The keys of a bucket are pairwise distinct (JS objects cannot hold a key
twice). -/
def nodupKeys (b : Bucket) : Prop :=
  (b.map Prod.fst).Nodup

instance nodupKeysDecidable (b : Bucket) : Decidable (nodupKeys b) :=
  List.nodupDecidable _

/- ## proxy.js: Proxy.close -/

/-- The handle-releasing effects of `Proxy.close()`: destroying one open
websocket, or closing the session, uiView, or supervisor handle. -/
inductive ReleaseAction where
  | destroySocket (id : Nat)
  | closeSession
  | closeUiView
  | closeSupervisor
  deriving DecidableEq, Repr

/-- The slice of Proxy state that `close()` touches: the ids of the open
websockets and which of the three lazily-created handles are present. -/
structure ProxyHandles where
  websockets : List Nat
  session : Bool
  uiView : Bool
  supervisor : Bool
  deriving DecidableEq, Repr

/-- The release calls `close()` makes from a given state, in order: destroy
every open websocket, then close each of session, uiView, supervisor that is
present. -/
def closeActions (s : ProxyHandles) : List ReleaseAction :=
  s.websockets.map ReleaseAction.destroySocket
    ++ (if s.session then [ReleaseAction.closeSession] else [])
    ++ (if s.uiView then [ReleaseAction.closeUiView] else [])
    ++ (if s.supervisor then [ReleaseAction.closeSupervisor] else [])

/-- proxy.js `Proxy.close()`: destroy and forget all websockets, close and
delete the session, uiView and supervisor handles. Returns the state after
the call and the release calls made. -/
def closeProxy (s : ProxyHandles) : ProxyHandles × List ReleaseAction :=
  (⟨[], false, false, false⟩, closeActions s)

/- ## proxy.js: handleRequest method dispatch -/

/-- Which session RPC `Proxy.handleRequest` issues for a request; `getRpc`
carries the `ignoreBody` flag (true for HEAD). -/
inductive SessionRpc where
  | getRpc (isHead : Bool)
  | postRpc
  | putRpc
  | patchRpc
  | deleteRpc
  | propfindRpc
  | proppatchRpc
  | mkcolRpc
  | copyRpc
  | moveRpc
  | lockRpc
  | unlockRpc
  | aclRpc
  | reportRpc
  | optionsRpc
  deriving DecidableEq, Repr

/-- The HTTP methods `Proxy.handleRequest` accepts (spec §6). -/
def acceptedMethods : List String :=
  ["GET", "HEAD", "POST", "PUT", "PATCH", "DELETE", "PROPFIND", "PROPPATCH",
   "MKCOL", "COPY", "MOVE", "LOCK", "UNLOCK", "ACL", "REPORT", "OPTIONS"]

/-- The if-chain on `request.method` in `Proxy.handleRequest`: each accepted
method maps to its session RPC; anything else throws the plain
method-not-supported `Error`. -/
def dispatchMethod (method : String) : Except ProxyError SessionRpc :=
  if method = "GET" ∨ method = "HEAD" then
    Except.ok (SessionRpc.getRpc (decide (method = "HEAD")))
  else if method = "POST" then Except.ok SessionRpc.postRpc
  else if method = "PUT" then Except.ok SessionRpc.putRpc
  else if method = "PATCH" then Except.ok SessionRpc.patchRpc
  else if method = "DELETE" then Except.ok SessionRpc.deleteRpc
  else if method = "PROPFIND" then Except.ok SessionRpc.propfindRpc
  else if method = "PROPPATCH" then Except.ok SessionRpc.proppatchRpc
  else if method = "MKCOL" then Except.ok SessionRpc.mkcolRpc
  else if method = "COPY" then Except.ok SessionRpc.copyRpc
  else if method = "MOVE" then Except.ok SessionRpc.moveRpc
  else if method = "LOCK" then Except.ok SessionRpc.lockRpc
  else if method = "UNLOCK" then Except.ok SessionRpc.unlockRpc
  else if method = "ACL" then Except.ok SessionRpc.aclRpc
  else if method = "REPORT" then Except.ok SessionRpc.reportRpc
  else if method = "OPTIONS" then Except.ok SessionRpc.optionsRpc
  else
    Except.error (ProxyError.plainError
      ("Sandstorm only supports the following methods: GET, POST, PUT, PATCH, DELETE, HEAD, PROPFIND, PROPPATCH, MKCOL, COPY, MOVE, LOCK, UNLOCK, ACL, REPORT, and OPTIONS."))

/-- The status the client sees when the method dispatch throws: the error
passes through `maybeRetryAfterError` (rethrown unless retriable) and the
`requestHandler` catch clause. `none` means the method was dispatched to a
session RPC and no method-rejection response is produced. -/
def methodRejectionStatus (method : String) (retryCount : Nat) : Option Nat :=
  match dispatchMethod method with
  | Except.ok _ => none
  | Except.error e =>
    if shouldRestartGrain e retryCount then none
    else some (errorStatus e)

/- ## proxy.js: getProxyForHostId concurrent-close check -/

/-- The `proxiesByHostId` table: host id → `null` placeholder or a proxy
(proxies named by ids). -/
abbrev HostTable := List (String × Option Nat)

/-- JS `hostId in proxiesByHostId`. -/
def tableHasKey (t : HostTable) (hostId : String) : Bool :=
  t.any (fun kv => kv.1 == hostId)

/-- JS `proxiesByHostId[hostId] = v`. -/
def tableSet (t : HostTable) (hostId : String) (v : Option Nat) : HostTable :=
  if tableHasKey t hostId then
    t.map (fun kv => if kv.1 = hostId then (hostId, v) else kv)
  else
    t ++ [(hostId, v)]

/-- The start of the slow path of `getProxyForHostId`: store the `null`
placeholder so a concurrent deletion can be detected. -/
def beginProxyCreation (t : HostTable) (hostId : String) : HostTable :=
  tableSet t hostId none

/-- The end of the slow path of `getProxyForHostId`, running against the
table as it stands when the async session lookup completes: install the
fresh proxy only if the host id is still a key of the table, otherwise
discard it and throw 403. Returns the table afterwards and the outcome. -/
def finishProxyCreation (t : HostTable) (hostId : String) (proxyId : Nat) :
    HostTable × Except MeteorError Nat :=
  if tableHasKey t hostId then
    (tableSet t hostId (some proxyId), Except.ok proxyId)
  else
    (t, Except.error ⟨403, "Session was concurrently closed."⟩)

/- # Theorems -/

set_option maxRecDepth 10000

/- ## SHA-256 implementation validation (FIPS 180-4 test vectors) -/

/-- The one-block FIPS 180-4 test vector. -/
theorem sha256hex_vector_abc :
    sha256hex "abc" =
      "ba7816bf8f01cfea414140de5dae2223b00361a396177a9cb410ff61f20015ad" := by
  rfl

/-- The empty-message FIPS 180-4 test vector. -/
theorem sha256hex_vector_empty :
    sha256hex "" =
      "e3b0c44298fc1c149afbf4c8996fb92427ae41e4649b934ca495991b7852b855" := by
  rfl

/-- The two-block FIPS 180-4 test vector (exercises the padding split). -/
theorem sha256hex_vector_448bit :
    sha256hex "abcdbcdecdefdefgefghfghighijhijkijkljklmklmnlmnomnopnopq" =
      "248d6a61d20638b8e5c026930c3e6039a33ce45964ff2167f6ecedd419db06c1" := by
  rfl

/- ## C1 -/

/-- C1 counterexample: at the concrete token "abc", the host id the code
computes (a single hash of "x"+token) differs from the spec's double-hash
formula `hash(hash("x"+token))`; the claim's stated equation is false. -/
theorem apiHostIdForToken_ne_spec_double_hash :
    apiHostIdForToken "abc" ≠ specApiHostIdForToken "abc" := by
  decide

/-- C1 (amended): the per-token API host id equals "api-" followed by the
single hash sha256("x"+token), truncated to 128 bits (32 hex characters) and
hex-encoded; `apiHostIdForToken` is a deterministic pure function of the
token (equal tokens give equal host ids), and the truncation really yields
32 hex characters (36 with the "api-" tag). -/
theorem apiHostIdForToken_single_hash_deterministic (t u : String) (h : t = u) :
    apiHostIdForToken t =
        "api-" ++ String.mk ((hexDigestChars (sha256 (strBytes ("x" ++ t)))).take 32) ∧
    apiHostIdForToken t = apiHostIdForToken u ∧
    (apiHostIdHashForToken t).length = 32 ∧
    (apiHostIdForToken t).length = 36 := by
  subst h
  refine ⟨rfl, rfl, ?_, ?_⟩ <;> rfl

theorem apiHostIdForToken_single_hash_deterministic_witness :
    ("abc123" : String) = "abc123" ∧
    (apiHostIdForToken "abc123" =
        "api-" ++ String.mk ((hexDigestChars (sha256 (strBytes ("x" ++ "abc123")))).take 32) ∧
     apiHostIdForToken "abc123" = apiHostIdForToken "abc123" ∧
     (apiHostIdHashForToken "abc123").length = 32 ∧
     (apiHostIdForToken "abc123").length = 36) :=
  ⟨rfl, apiHostIdForToken_single_hash_deterministic "abc123" "abc123" rfl⟩

/- ## C2 -/

/-- C2 counterexample: when no token record exists for the presented secret,
`validateWebkey` throws `Meteor.Error(403, "Invalid authorization token")` —
a Forbidden-class error, not a NotFound (404) error as the claim states. -/
theorem validateWebkey_missing_token_forbidden :
    (validateWebkey none none 0).1 =
        Except.error ⟨403, "Invalid authorization token"⟩ ∧
    (403 : Nat) ≠ 404 :=
  ⟨rfl, by decide⟩

/-- C2 (amended): a missing token record fails with Forbidden (403,
"Invalid authorization token") — the same error class as revocation, not
NotFound — and a record with `revoked = true` fails with Forbidden (403,
"Authorization token has been revoked"). -/
theorem validateWebkey_missing_and_revoked_forbidden
    (tok : ApiTokenRec) (refreshed : Option Nat) (now : Nat)
    (h : tok.revoked = true) :
    (validateWebkey none refreshed now).1 =
        Except.error ⟨403, "Invalid authorization token"⟩ ∧
    (validateWebkey (some tok) refreshed now).1 =
        Except.error ⟨403, "Authorization token has been revoked"⟩ := by
  exact ⟨rfl, by simp [validateWebkey, h]⟩

theorem validateWebkey_missing_and_revoked_forbidden_witness :
    (⟨true, none, none, none, false, false⟩ : ApiTokenRec).revoked = true ∧
    ((validateWebkey none none 0).1 =
        Except.error ⟨403, "Invalid authorization token"⟩ ∧
     (validateWebkey (some ⟨true, none, none, none, false, false⟩) none 0).1 =
        Except.error ⟨403, "Authorization token has been revoked"⟩) :=
  ⟨rfl, validateWebkey_missing_and_revoked_forbidden
          ⟨true, none, none, none, false, false⟩ none 0 rfl⟩

/- ## C4 -/

/-- C4 counterexample: with the backend permanently unresponsive, after three
30-second periods two ping checks have failed consecutively
(`disconnectCount = 2`) yet the process has not aborted; it still has not
aborted a period later, and only aborts on the fifth period — the fourth
failed check, 120 seconds of unresponsiveness, not 60. -/
theorem healthCheck_no_abort_after_two_failures :
    (healthRunSilent 3).disconnectCount = 2 ∧
    (healthRunSilent 3).aborted = false ∧
    (healthRunSilent 4).aborted = false ∧
    (healthRunSilent 5).aborted = true := by
  decide

/-- C4 (amended): a tick of the health-check interval aborts the process
exactly when the previous ping went unanswered and more than two failed
checks had already been counted — i.e. on the fourth failed check, after 120
seconds of unresponsiveness; the failure counter is cumulative over the
process lifetime (never reset, hence "consecutive" is not required, and it
never decreases), and each failed check below the threshold tears down the
backend connection and re-establishes it (generation + 1). -/
theorem healthCheck_abort_on_fourth_cumulative_failure
    (s : HealthState) (answered : Bool) (h : s.aborted = false) :
    ((healthStep s answered).aborted = true ↔
        s.backendHealthy = false ∧ s.disconnectCount > 2) ∧
    (s.backendHealthy = false → s.disconnectCount ≤ 2 →
        (healthStep s answered).generation = s.generation + 1 ∧
        (healthStep s answered).disconnectCount = s.disconnectCount + 1) ∧
    s.disconnectCount ≤ (healthStep s answered).disconnectCount := by
  cases hb : s.backendHealthy <;>
    by_cases hd : s.disconnectCount > 2 <;>
      cases answered <;>
        simp [healthStep, healthTick, pingOutcome, h, hb, hd]

theorem healthCheck_abort_on_fourth_cumulative_failure_witness :
    (⟨false, 3, 7, false⟩ : HealthState).aborted = false ∧
    (((healthStep ⟨false, 3, 7, false⟩ false).aborted = true ↔
        (⟨false, 3, 7, false⟩ : HealthState).backendHealthy = false ∧
        (⟨false, 3, 7, false⟩ : HealthState).disconnectCount > 2) ∧
     ((⟨false, 3, 7, false⟩ : HealthState).backendHealthy = false →
        (⟨false, 3, 7, false⟩ : HealthState).disconnectCount ≤ 2 →
        (healthStep ⟨false, 3, 7, false⟩ false).generation =
            (⟨false, 3, 7, false⟩ : HealthState).generation + 1 ∧
        (healthStep ⟨false, 3, 7, false⟩ false).disconnectCount =
            (⟨false, 3, 7, false⟩ : HealthState).disconnectCount + 1) ∧
     (⟨false, 3, 7, false⟩ : HealthState).disconnectCount ≤
        (healthStep ⟨false, 3, 7, false⟩ false).disconnectCount) :=
  ⟨rfl, healthCheck_abort_on_fourth_cumulative_failure ⟨false, 3, 7, false⟩ false rfl⟩

/- ## C3 -/

/-- Helper: once the retry counter has reached 1, `handleRequestAttempts`
surfaces the attempt's outcome unchanged — `shouldRestartGrain` refuses a
second retry. -/
theorem handleRequestAttempts_at_one (b : Nat → Except ProxyError Nat)
    (attempt : Nat) : handleRequestAttempts b attempt 1 = b attempt := by
  unfold handleRequestAttempts
  cases hb : b attempt with
  | ok r => rfl
  | error e => simp [shouldRestartGrain]

/-- Helper: a retriable first failure leads to exactly one replay, whose
outcome is surfaced unchanged. -/
theorem handleRequestAttempts_retry_once (b : Nat → Except ProxyError Nat)
    (e : ProxyError) (h0 : b 0 = Except.error e)
    (hr : retriableError e = true) :
    handleRequestAttempts b 0 0 = b 1 := by
  unfold handleRequestAttempts
  simp only [h0, shouldRestartGrain, hr]
  simpa using handleRequestAttempts_at_one b 1

/-- C3: a transient (retriable) backend error on the first attempt causes
exactly one reconnect-and-replay: the request's outcome is the replay's
outcome, unchanged. If the replay also fails with a transient error, that
error surfaces and the `requestHandler` catch clause turns it into HTTP 500
(a transient RPC error is not a `Meteor.Error`). No third attempt is made:
the outcome depends only on attempts 0 and 1 of the backend. -/
theorem handleRequest_retries_exactly_once
    (backend backend2 : Nat → Except ProxyError Nat) (e0 e1 : ProxyError)
    (h0 : backend 0 = Except.error e0) (hr : retriableError e0 = true) :
    handleRequestAttempts backend 0 0 = backend 1 ∧
    (backend 1 = Except.error e1 → retriableError e1 = true →
        errorStatus e1 = 500) ∧
    (backend2 0 = backend 0 → backend2 1 = backend 1 →
        handleRequestAttempts backend2 0 0 = handleRequestAttempts backend 0 0) := by
  refine ⟨handleRequestAttempts_retry_once backend e0 h0 hr, ?_, ?_⟩
  · intro _ hr1
    cases e1 <;> simp_all [retriableError, errorStatus]
  · intro h20 h21
    rw [handleRequestAttempts_retry_once backend e0 h0 hr,
        handleRequestAttempts_retry_once backend2 e0 (h20.trans h0) hr, h21]

theorem handleRequest_retries_exactly_once_witness :
    retryDemoBackend 0 =
        Except.error (ProxyError.rpcError "disconnected" ("Peer disconnected.")) ∧
    retriableError (ProxyError.rpcError "disconnected" ("Peer disconnected.")) = true ∧
    (handleRequestAttempts retryDemoBackend 0 0 = retryDemoBackend 1 ∧
     (retryDemoBackend 1 =
          Except.error (ProxyError.rpcError "disconnected" ("Peer disconnected.")) →
        retriableError (ProxyError.rpcError "disconnected" ("Peer disconnected.")) = true →
        errorStatus (ProxyError.rpcError "disconnected" ("Peer disconnected.")) = 500) ∧
     (retryDemoBackend 0 = retryDemoBackend 0 → retryDemoBackend 1 = retryDemoBackend 1 →
        handleRequestAttempts retryDemoBackend 0 0 =
            handleRequestAttempts retryDemoBackend 0 0)) :=
  ⟨rfl, rfl, handleRequest_retries_exactly_once retryDemoBackend retryDemoBackend
      (ProxyError.rpcError "disconnected" ("Peer disconnected."))
      (ProxyError.rpcError "disconnected" ("Peer disconnected.")) rfl rfl⟩

/- ## C6 and C10: validateWebkey expiry-field mutation -/

/-- Helper: the non-webview tail check always reports the record it was
given as the stored record. -/
theorem finishValidate_snd (tok : ApiTokenRec) :
    (finishValidate tok).2 = some tok := by
  unfold finishValidate
  split <;> rfl

/-- Helper: validating any record whose `expiresIfUnused` is already clear
leaves the stored record unchanged. -/
theorem validateWebkey_snd_of_cleared (u : ApiTokenRec)
    (refreshed : Option Nat) (now : Nat) (hu : u.expiresIfUnused = none) :
    (validateWebkey (some u) refreshed now).2 = some u := by
  by_cases hrev : u.revoked = true <;>
    by_cases hown : nonWebkeyOwner u.owner = true <;>
      by_cases hexp : expiredAt u.expires now = true <;>
        simp [validateWebkey, hrev, hown, hexp, hu, finishValidate_snd]

/-- Helper: validating a record whose `expiresIfUnused` is clear can fail
with the "expired" error only through the absolute `expires` check; if that
has not passed, the "expired" error is impossible. -/
theorem validateWebkey_cleared_no_idle_error (u : ApiTokenRec)
    (refreshed : Option Nat) (now : Nat) (hu : u.expiresIfUnused = none)
    (hexp : expiredAt u.expires now = false) :
    (validateWebkey (some u) refreshed now).1 ≠
      Except.error ⟨403, "Authorization token expired"⟩ := by
  by_cases hrev : u.revoked = true <;>
    by_cases hown : nonWebkeyOwner u.owner = true <;>
      by_cases hobj : (u.objectId || u.frontendRef) = true <;>
        simp [validateWebkey, finishValidate, hrev, hown, hexp, hu, hobj]

/-- C6: a token whose `expiresIfUnused` lies in the future, validated with
no refresh deadline (and passing the earlier checks: not revoked, webkey
owner, absolute expiry not passed), has `expiresIfUnused` cleared in the
stored record; and for any record with the field cleared, every later
validation leaves the record unchanged (the field stays clear forever) and
can only fail with the "expired" error because the absolute `expires`
timestamp passed — never through the idle-expiry (`expiresIfUnused`) check. -/
theorem validateWebkey_first_use_clears_idle_expiry
    (tok u : ApiTokenRec) (refreshed2 : Option Nat) (now now2 eiu : Nat)
    (h1 : tok.revoked = false)
    (h2 : nonWebkeyOwner tok.owner = false)
    (h3 : expiredAt tok.expires now = false)
    (h4 : tok.expiresIfUnused = some eiu)
    (h5 : now < eiu)
    (hu : u.expiresIfUnused = none) :
    (validateWebkey (some tok) none now).2 =
        some { tok with expiresIfUnused := none } ∧
    (validateWebkey (some u) refreshed2 now2).2 = some u ∧
    ((validateWebkey (some u) refreshed2 now2).1 =
        Except.error ⟨403, "Authorization token expired"⟩ →
      expiredAt u.expires now2 = true) := by
  refine ⟨?_, validateWebkey_snd_of_cleared u refreshed2 now2 hu, ?_⟩
  · simp [validateWebkey, h1, h2, h3, h4, Nat.not_le.mpr h5, finishValidate_snd]
  · intro herr
    by_contra hexp
    rw [Bool.not_eq_true] at hexp
    exact validateWebkey_cleared_no_idle_error u refreshed2 now2 hu hexp herr

theorem validateWebkey_first_use_clears_idle_expiry_witness :
    (⟨false, some TokenOwner.webkey, none, some 100, false, false⟩ : ApiTokenRec).revoked = false ∧
    nonWebkeyOwner (some TokenOwner.webkey) = false ∧
    expiredAt none 5 = false ∧
    (⟨false, some TokenOwner.webkey, none, some 100, false, false⟩ : ApiTokenRec).expiresIfUnused = some 100 ∧
    5 < 100 ∧
    (⟨false, some TokenOwner.webkey, none, none, false, false⟩ : ApiTokenRec).expiresIfUnused = none ∧
    ((validateWebkey (some ⟨false, some TokenOwner.webkey, none, some 100, false, false⟩) none 5).2 =
        some { (⟨false, some TokenOwner.webkey, none, some 100, false, false⟩ : ApiTokenRec) with
                 expiresIfUnused := none } ∧
     (validateWebkey (some ⟨false, some TokenOwner.webkey, none, none, false, false⟩) none 999).2 =
        some ⟨false, some TokenOwner.webkey, none, none, false, false⟩ ∧
     ((validateWebkey (some ⟨false, some TokenOwner.webkey, none, none, false, false⟩) none 999).1 =
          Except.error ⟨403, "Authorization token expired"⟩ →
        expiredAt (⟨false, some TokenOwner.webkey, none, none, false, false⟩ : ApiTokenRec).expires 999 = true)) :=
  ⟨rfl, rfl, rfl, rfl, by decide, rfl,
   validateWebkey_first_use_clears_idle_expiry
     ⟨false, some TokenOwner.webkey, none, some 100, false, false⟩
     ⟨false, some TokenOwner.webkey, none, none, false, false⟩
     none 5 999 100 rfl rfl rfl rfl (by decide) rfl⟩

/-- C10: a token whose `expiresIfUnused` lies in the future and which also
carries an `objectId` or `frontendRef` field (and passes the earlier checks)
has the `expiresIfUnused` mutation persisted — cleared, or extended when a
refresh deadline is given — and the validation then fails with the
"non-webview Capability" rejection: the stored record is mutated even though
validation fails. -/
theorem validateWebkey_mutates_then_rejects_nonWebview
    (tok : ApiTokenRec) (refreshed : Option Nat) (now eiu : Nat)
    (h1 : tok.revoked = false)
    (h2 : nonWebkeyOwner tok.owner = false)
    (h3 : expiredAt tok.expires now = false)
    (h4 : tok.expiresIfUnused = some eiu)
    (h5 : now < eiu)
    (h6 : (tok.objectId || tok.frontendRef) = true) :
    (validateWebkey (some tok) refreshed now).1 =
        Except.error ⟨403, "ApiToken refers to a non-webview Capability."⟩ ∧
    (validateWebkey (some tok) refreshed now).2 =
        some { tok with expiresIfUnused :=
                 match refreshed with
                 | some r => some r
                 | none => none } := by
  cases refreshed <;>
    simp [validateWebkey, h1, h2, h3, h4, Nat.not_le.mpr h5, finishValidate, h6]

theorem validateWebkey_mutates_then_rejects_nonWebview_witness :
    (⟨false, some TokenOwner.webkey, none, some 100, true, false⟩ : ApiTokenRec).revoked = false ∧
    nonWebkeyOwner (some TokenOwner.webkey) = false ∧
    expiredAt none 5 = false ∧
    (⟨false, some TokenOwner.webkey, none, some 100, true, false⟩ : ApiTokenRec).expiresIfUnused = some 100 ∧
    5 < 100 ∧
    ((⟨false, some TokenOwner.webkey, none, some 100, true, false⟩ : ApiTokenRec).objectId ||
       (⟨false, some TokenOwner.webkey, none, some 100, true, false⟩ : ApiTokenRec).frontendRef) = true ∧
    ((validateWebkey (some ⟨false, some TokenOwner.webkey, none, some 100, true, false⟩) (some 500) 5).1 =
        Except.error ⟨403, "ApiToken refers to a non-webview Capability."⟩ ∧
     (validateWebkey (some ⟨false, some TokenOwner.webkey, none, some 100, true, false⟩) (some 500) 5).2 =
        some { (⟨false, some TokenOwner.webkey, none, some 100, true, false⟩ : ApiTokenRec) with
                 expiresIfUnused :=
                   match (some 500 : Option Nat) with
                   | some r => some r
                   | none => none }) :=
  ⟨rfl, rfl, rfl, rfl, by decide, rfl,
   validateWebkey_mutates_then_rejects_nonWebview
     ⟨false, some TokenOwner.webkey, none, some 100, true, false⟩
     (some 500) 5 100 rfl rfl rfl rfl (by decide) rfl⟩

/- ## C9 -/

/-- C9: if, when the async session lookup completes, the host id is no longer
a key of `proxiesByHostId` (the placeholder slot was concurrently deleted),
the freshly built Proxy is not installed — the table is left untouched — and
the caller receives `Meteor.Error(403, "Session was concurrently closed.")`. -/
theorem finishProxyCreation_concurrently_closed
    (t : HostTable) (hostId : String) (proxyId : Nat)
    (h : tableHasKey t hostId = false) :
    (finishProxyCreation t hostId proxyId).1 = t ∧
    (finishProxyCreation t hostId proxyId).2 =
        Except.error ⟨403, "Session was concurrently closed."⟩ := by
  simp [finishProxyCreation, h]

theorem finishProxyCreation_concurrently_closed_witness :
    tableHasKey [("other-host", some 3)] "host-a" = false ∧
    ((finishProxyCreation [("other-host", some 3)] "host-a" 7).1 =
        [("other-host", some 3)] ∧
     (finishProxyCreation [("other-host", some 3)] "host-a" 7).2 =
        Except.error ⟨403, "Session was concurrently closed."⟩) :=
  ⟨rfl, finishProxyCreation_concurrently_closed [("other-host", some 3)] "host-a" 7 rfl⟩

/- ## C5: the ApiSessionProxies sweep -/

/-- Helper: a key absent from a bucket's key list looks up to nothing. -/
theorem bucketGet_eq_none (b : Bucket) (k : CacheKey)
    (h : k ∉ b.map Prod.fst) : bucketGet b k = none := by
  induction b with
  | nil => rfl
  | cons kv rest ih =>
    simp only [List.map_cons, List.mem_cons, not_or] at h
    have hne : ¬ kv.1 = k := fun e => h.1 e.symm
    rw [bucketGet, if_neg hne]
    exact ih h.2

/-- Helper: replacing a present key's value makes it the lookup result. -/
theorem bucketGet_map_replace (b : Bucket) (k : CacheKey) (p : ApiProxy)
    (hpres : (bucketGet b k).isSome = true) :
    bucketGet (b.map (fun kv => if kv.1 = k then (k, p) else kv)) k = some p := by
  induction b with
  | nil => simp [bucketGet] at hpres
  | cons kv rest ih =>
    by_cases hk : kv.1 = k
    · simp [bucketGet, hk]
    · simp only [bucketGet, if_neg hk] at hpres
      simp only [List.map_cons, if_neg hk, bucketGet, if_neg hk]
      exact ih hpres

/-- Helper: the replacement touches only values stored under the replaced
key, so lookups of other keys are unchanged. -/
theorem bucketGet_map_replace_other (b : Bucket) (k k2 : CacheKey)
    (p : ApiProxy) (hne : k2 ≠ k) :
    bucketGet (b.map (fun kv => if kv.1 = k then (k, p) else kv)) k2 =
      bucketGet b k2 := by
  induction b with
  | nil => rfl
  | cons kv rest ih =>
    have h1 : ¬ k = k2 := fun e => hne e.symm
    by_cases hk : kv.1 = k
    · have h2 : ¬ kv.1 = k2 := by
        rw [hk]
        exact h1
      simp only [List.map_cons, if_pos hk, bucketGet, if_neg h1, if_neg h2]
      exact ih
    · simp only [List.map_cons, if_neg hk, bucketGet]
      by_cases hk2 : kv.1 = k2
      · simp [hk2]
      · simp only [if_neg hk2]
        exact ih

/-- Helper: lookup after appending a fresh binding at the end. -/
theorem bucketGet_append_single (b : Bucket) (k k2 : CacheKey) (p : ApiProxy) :
    bucketGet (b ++ [(k, p)]) k2 =
      match bucketGet b k2 with
      | some q => some q
      | none => if k = k2 then some p else none := by
  induction b with
  | nil => rfl
  | cons kv rest ih =>
    by_cases hk : kv.1 = k2 <;> simp [bucketGet, hk, ih]

/-- Helper: `put` makes its key look up to its proxy. -/
theorem bucketGet_put_same (b : Bucket) (k : CacheKey) (p : ApiProxy) :
    bucketGet (bucketPut b k p) k = some p := by
  unfold bucketPut
  split
  case isTrue hpres => exact bucketGet_map_replace b k p hpres
  case isFalse habs =>
    rw [bucketGet_append_single]
    have hnone : bucketGet b k = none := by
      cases h : bucketGet b k
      · rfl
      · rw [h] at habs
        simp at habs
    simp [hnone]

/-- Helper: `put` leaves other keys' lookups unchanged. -/
theorem bucketGet_put_other (b : Bucket) (k k2 : CacheKey) (p : ApiProxy)
    (hne : k2 ≠ k) :
    bucketGet (bucketPut b k p) k2 = bucketGet b k2 := by
  unfold bucketPut
  split
  case isTrue hpres => exact bucketGet_map_replace_other b k k2 p hne
  case isFalse habs =>
    rw [bucketGet_append_single]
    have h1 : ¬ k = k2 := fun e => hne e.symm
    cases h : bucketGet b k2 <;> simp [h, h1]

/-- Helper: the sweep never drops or overwrites an entry already in the new
bucket: `put` happens only at keys that look up to nothing there. -/
theorem sweepGo_preserves_new (old : Bucket) (newB : Bucket)
    (closed : List ApiProxy) (k : CacheKey) (q : ApiProxy)
    (h : bucketGet newB k = some q) :
    bucketGet (sweepGo old newB closed).1 k = some q := by
  induction old generalizing newB closed with
  | nil => simpa [sweepGo]
  | cons kv rest ih =>
    cases hn : bucketGet newB kv.1 with
    | some _ =>
      simp only [sweepGo, hn]
      exact ih newB closed h
    | none =>
      by_cases hw : kv.2.websocketCount > 0
      · simp only [sweepGo, hn, if_pos hw]
        apply ih
        have hkk : k ≠ kv.1 := by
          intro e
          rw [e, hn] at h
          cases h
        rw [bucketGet_put_other newB kv.1 k kv.2 hkk]
        exact h
      · simp only [sweepGo, hn, if_neg hw]
        exact ih newB (closed ++ [kv.2]) h

/-- Helper: a key in neither bucket is absent after the sweep. -/
theorem sweepGo_none (old : Bucket) (newB : Bucket) (closed : List ApiProxy)
    (k : CacheKey) (hnew : bucketGet newB k = none)
    (hold : bucketGet old k = none) :
    bucketGet (sweepGo old newB closed).1 k = none := by
  induction old generalizing newB closed with
  | nil => simpa [sweepGo]
  | cons kv rest ih =>
    by_cases hkk : kv.1 = k
    · rw [bucketGet, if_pos hkk] at hold
      cases hold
    · rw [bucketGet, if_neg hkk] at hold
      cases hn : bucketGet newB kv.1 with
      | some _ =>
        simp only [sweepGo, hn]
        exact ih newB closed hnew hold
      | none =>
        by_cases hw : kv.2.websocketCount > 0
        · simp only [sweepGo, hn, if_pos hw]
          apply ih
          · rw [bucketGet_put_other newB kv.1 k kv.2 (fun e => hkk e.symm)]
            exact hnew
          · exact hold
        · simp only [sweepGo, hn, if_neg hw]
          exact ih newB (closed ++ [kv.2]) hnew hold

/-- Helper: an old-bucket entry not shadowed in the new bucket survives the
sweep exactly when it has live websockets. -/
theorem sweepGo_old_hit (old : Bucket) (newB : Bucket)
    (closed : List ApiProxy) (k : CacheKey) (p : ApiProxy)
    (hnd : nodupKeys old) (hnew : bucketGet newB k = none)
    (hold : bucketGet old k = some p) :
    bucketGet (sweepGo old newB closed).1 k =
      (if p.websocketCount > 0 then some p else none) := by
  induction old generalizing newB closed with
  | nil => cases hold
  | cons kv rest ih =>
    have hnd2 : kv.1 ∉ rest.map Prod.fst ∧ nodupKeys rest := by
      simpa [nodupKeys, List.nodup_cons] using hnd
    by_cases hkk : kv.1 = k
    · have hp : kv.2 = p := by
        rw [bucketGet, if_pos hkk] at hold
        exact Option.some.inj hold
      subst hp
      have hn : bucketGet newB kv.1 = none := by
        rw [hkk]
        exact hnew
      by_cases hw : kv.2.websocketCount > 0
      · rw [if_pos hw]
        simp only [sweepGo, hn, if_pos hw]
        apply sweepGo_preserves_new
        rw [← hkk]
        exact bucketGet_put_same newB kv.1 kv.2
      · rw [if_neg hw]
        simp only [sweepGo, hn, if_neg hw]
        apply sweepGo_none rest newB _ k hnew
        apply bucketGet_eq_none
        rw [← hkk]
        exact hnd2.1
    · rw [bucketGet, if_neg hkk] at hold
      cases hn : bucketGet newB kv.1 with
      | some _ =>
        simp only [sweepGo, hn]
        exact ih newB closed hnd2.2 hnew hold
      | none =>
        by_cases hw : kv.2.websocketCount > 0
        · simp only [sweepGo, hn, if_pos hw]
          refine ih _ closed hnd2.2 ?_ hold
          rw [bucketGet_put_other newB kv.1 k kv.2 (fun e => hkk e.symm)]
          exact hnew
        · simp only [sweepGo, hn, if_neg hw]
          exact ih newB (closed ++ [kv.2]) hnd2.2 hnew hold

/-- Helper: the sweep only appends to the closed list. -/
theorem sweepGo_closed_mono (old : Bucket) (newB : Bucket)
    (closed : List ApiProxy) (q : ApiProxy) (h : q ∈ closed) :
    q ∈ (sweepGo old newB closed).2 := by
  induction old generalizing newB closed with
  | nil => simpa [sweepGo]
  | cons kv rest ih =>
    cases hn : bucketGet newB kv.1 with
    | some _ =>
      simp only [sweepGo, hn]
      exact ih newB closed h
    | none =>
      by_cases hw : kv.2.websocketCount > 0
      · simp only [sweepGo, hn, if_pos hw]
        exact ih _ closed h
      · simp only [sweepGo, hn, if_neg hw]
        exact ih newB _ (List.mem_append_left _ h)

/-- Helper: everything the sweep closes had zero live websockets. -/
theorem sweepGo_closed_ws0 (old : Bucket) (newB : Bucket)
    (closed : List ApiProxy) (h : ∀ q ∈ closed, q.websocketCount = 0)
    (q : ApiProxy) (hq : q ∈ (sweepGo old newB closed).2) :
    q.websocketCount = 0 := by
  induction old generalizing newB closed with
  | nil =>
    simp only [sweepGo] at hq
    exact h q hq
  | cons kv rest ih =>
    cases hn : bucketGet newB kv.1 with
    | some _ =>
      rw [sweepGo, hn] at hq
      exact ih newB closed h hq
    | none =>
      by_cases hw : kv.2.websocketCount > 0
      · rw [sweepGo, hn, if_pos hw] at hq
        exact ih _ closed h hq
      · rw [sweepGo, hn, if_neg hw] at hq
        refine ih newB _ ?_ hq
        intro r hr
        rcases List.mem_append.mp hr with hr | hr
        · exact h r hr
        · rw [List.mem_singleton.mp hr]
          omega

/-- Helper: an unshadowed old-bucket entry with no live websockets is
closed by the sweep. -/
theorem sweepGo_closes_idle (old : Bucket) (newB : Bucket)
    (closed : List ApiProxy) (k : CacheKey) (p : ApiProxy)
    (hnew : bucketGet newB k = none) (hold : bucketGet old k = some p)
    (hws : p.websocketCount = 0) :
    p ∈ (sweepGo old newB closed).2 := by
  induction old generalizing newB closed with
  | nil => cases hold
  | cons kv rest ih =>
    by_cases hkk : kv.1 = k
    · have hp : kv.2 = p := by
        rw [bucketGet, if_pos hkk] at hold
        exact Option.some.inj hold
      subst hp
      have hn : bucketGet newB kv.1 = none := by
        rw [hkk]
        exact hnew
      have hw : ¬ kv.2.websocketCount > 0 := by omega
      simp only [sweepGo, hn, if_neg hw]
      exact sweepGo_closed_mono rest newB _ kv.2
        (List.mem_append_right _ (List.mem_singleton_self kv.2))
    · rw [bucketGet, if_neg hkk] at hold
      cases hn : bucketGet newB kv.1 with
      | some _ =>
        rw [sweepGo, hn]
        exact ih newB closed hnew hold
      | none =>
        by_cases hw : kv.2.websocketCount > 0
        · rw [sweepGo, hn, if_pos hw]
          refine ih _ closed ?_ hold
          rw [bucketGet_put_other newB kv.1 k kv.2 (fun e => hkk e.symm)]
          exact hnew
        · rw [sweepGo, hn, if_neg hw]
          exact ih newB _ hnew hold

/-- C5 counterexample: an old-bucket entry with a live WebSocket whose key
also has an entry in the new bucket neither remains in the cache (the
new-bucket proxy shadows it and the old one is dropped) nor is closed —
refuting the claim's unqualified clause that every old-bucket entry with at
least one live WebSocket remains in the cache. -/
theorem sweepCache_drops_shadowed_websocket_entry :
    bucketGet [(("t", "p"), ⟨1, 1⟩)] ("t", "p") = some ⟨1, 1⟩ ∧
    (⟨1, 1⟩ : ApiProxy).websocketCount > 0 ∧
    cacheFind (sweepCache ⟨[(("t", "p"), ⟨2, 0⟩)], [(("t", "p"), ⟨1, 1⟩)]⟩).1
        ("t", "p") ≠ some ⟨1, 1⟩ ∧
    (⟨1, 1⟩ : ApiProxy) ∉
      (sweepCache ⟨[(("t", "p"), ⟨2, 0⟩)], [(("t", "p"), ⟨1, 1⟩)]⟩).2 := by
  decide

/-- C5 (amended): each sweep establishes: every old-bucket entry with no
live WebSocket connections and no same-key entry in the new bucket is
closed and removed from the cache; every old-bucket entry with at least one
live WebSocket *and no same-key entry in the new bucket* remains in the
cache (and is not closed); entries of the pre-sweep new bucket survive
unchanged; and after the sweep the pre-sweep new bucket (plus the kept
old entries) has become the old bucket and the new bucket is empty. -/
theorem sweepCache_old_bucket_disposition
    (c : ApiCache) (k k2 : CacheKey) (p q : ApiProxy)
    (hnd : nodupKeys c.oldBucket)
    (hold : bucketGet c.oldBucket k = some p)
    (hnew : bucketGet c.newBucket k = none) :
    (p.websocketCount = 0 →
        p ∈ (sweepCache c).2 ∧ cacheFind (sweepCache c).1 k = none) ∧
    (p.websocketCount > 0 →
        cacheFind (sweepCache c).1 k = some p ∧ p ∉ (sweepCache c).2) ∧
    (bucketGet c.newBucket k2 = some q →
        cacheFind (sweepCache c).1 k2 = some q) ∧
    (sweepCache c).1.newBucket = [] := by
  refine ⟨?_, ?_, ?_, rfl⟩
  · intro hws
    constructor
    · exact sweepGo_closes_idle c.oldBucket c.newBucket [] k p hnew hold hws
    · show bucketGet (sweepGo c.oldBucket c.newBucket []).1 k = none
      rw [sweepGo_old_hit c.oldBucket c.newBucket [] k p hnd hnew hold]
      simp [hws]
  · intro hws
    constructor
    · show bucketGet (sweepGo c.oldBucket c.newBucket []).1 k = some p
      rw [sweepGo_old_hit c.oldBucket c.newBucket [] k p hnd hnew hold]
      simp [hws]
    · intro hmem
      have := sweepGo_closed_ws0 c.oldBucket c.newBucket []
        (by intro r hr; cases hr) p hmem
      omega
  · intro hq
    show bucketGet (sweepGo c.oldBucket c.newBucket []).1 k2 = some q
    exact sweepGo_preserves_new c.oldBucket c.newBucket [] k2 q hq

theorem sweepCache_old_bucket_disposition_witness :
    nodupKeys ([(("t1", "p1"), ⟨1, 2⟩), (("t2", "p2"), ⟨2, 0⟩)] : Bucket) ∧
    bucketGet [(("t1", "p1"), ⟨1, 2⟩), (("t2", "p2"), ⟨2, 0⟩)] ("t1", "p1") =
        some ⟨1, 2⟩ ∧
    bucketGet [(("tn", "pn"), ⟨9, 0⟩)] ("t1", "p1") = none ∧
    (((⟨1, 2⟩ : ApiProxy).websocketCount = 0 →
        (⟨1, 2⟩ : ApiProxy) ∈
          (sweepCache ⟨[(("tn", "pn"), ⟨9, 0⟩)],
            [(("t1", "p1"), ⟨1, 2⟩), (("t2", "p2"), ⟨2, 0⟩)]⟩).2 ∧
        cacheFind (sweepCache ⟨[(("tn", "pn"), ⟨9, 0⟩)],
            [(("t1", "p1"), ⟨1, 2⟩), (("t2", "p2"), ⟨2, 0⟩)]⟩).1 ("t1", "p1") = none) ∧
     ((⟨1, 2⟩ : ApiProxy).websocketCount > 0 →
        cacheFind (sweepCache ⟨[(("tn", "pn"), ⟨9, 0⟩)],
            [(("t1", "p1"), ⟨1, 2⟩), (("t2", "p2"), ⟨2, 0⟩)]⟩).1 ("t1", "p1") =
          some ⟨1, 2⟩ ∧
        (⟨1, 2⟩ : ApiProxy) ∉
          (sweepCache ⟨[(("tn", "pn"), ⟨9, 0⟩)],
            [(("t1", "p1"), ⟨1, 2⟩), (("t2", "p2"), ⟨2, 0⟩)]⟩).2) ∧
     (bucketGet [(("tn", "pn"), ⟨9, 0⟩)] ("tn", "pn") = some ⟨9, 0⟩ →
        cacheFind (sweepCache ⟨[(("tn", "pn"), ⟨9, 0⟩)],
            [(("t1", "p1"), ⟨1, 2⟩), (("t2", "p2"), ⟨2, 0⟩)]⟩).1 ("tn", "pn") =
          some ⟨9, 0⟩) ∧
     (sweepCache ⟨[(("tn", "pn"), ⟨9, 0⟩)],
        [(("t1", "p1"), ⟨1, 2⟩), (("t2", "p2"), ⟨2, 0⟩)]⟩).1.newBucket = []) :=
  ⟨by decide, rfl, rfl,
   sweepCache_old_bucket_disposition
     ⟨[(("tn", "pn"), ⟨9, 0⟩)], [(("t1", "p1"), ⟨1, 2⟩), (("t2", "p2"), ⟨2, 0⟩)]⟩
     ("t1", "p1") ("tn", "pn") ⟨1, 2⟩ ⟨9, 0⟩ (by decide) rfl rfl⟩

/- ## C7 -/

/-- Helper: socket ids embed injectively into release actions. -/
theorem destroySocket_injective :
    Function.Injective ReleaseAction.destroySocket := by
  intro a b hab
  injection hab

/-- Helper: with distinct socket ids, a close destroys any one socket at
most once. -/
theorem count_destroySocket_le_one (ws : List Nat) (i : Nat) (h : ws.Nodup) :
    (ws.map ReleaseAction.destroySocket).count (ReleaseAction.destroySocket i) ≤ 1 := by
  rw [List.count_map_of_injective ws ReleaseAction.destroySocket destroySocket_injective i]
  exact List.nodup_iff_count_le_one.mp h i

/-- Helper: non-socket actions never occur among the socket destructions. -/
theorem count_nonSocket_eq_zero (ws : List Nat) (a : ReleaseAction)
    (h : ∀ j, a ≠ ReleaseAction.destroySocket j) :
    (ws.map ReleaseAction.destroySocket).count a = 0 := by
  rw [List.count_eq_zero]
  intro hmem
  rcases List.mem_map.mp hmem with ⟨j, _, hj⟩
  exact h j hj.symm

/-- C7: `Proxy.close()` is idempotent — a second call leaves exactly the
state the first call produced and performs no release call at all — and it
raises no exception (the embedding is a total function). Across the calls
each underlying handle is released at most once: any given websocket (the
ids are distinct, as the JS socket counter guarantees) is destroyed at most
once, and each of the session, uiView and supervisor handles is closed at
most once. -/
theorem closeProxy_idempotent_releases_once (s : ProxyHandles) (i : Nat)
    (hnd : s.websockets.Nodup) :
    (closeProxy (closeProxy s).1).1 = (closeProxy s).1 ∧
    (closeProxy (closeProxy s).1).2 = [] ∧
    (closeProxy s).2.count (ReleaseAction.destroySocket i) ≤ 1 ∧
    (closeProxy s).2.count ReleaseAction.closeSession ≤ 1 ∧
    (closeProxy s).2.count ReleaseAction.closeUiView ≤ 1 ∧
    (closeProxy s).2.count ReleaseAction.closeSupervisor ≤ 1 := by
  have hses := count_nonSocket_eq_zero s.websockets ReleaseAction.closeSession
    (fun j hj => by cases hj)
  have hui := count_nonSocket_eq_zero s.websockets ReleaseAction.closeUiView
    (fun j hj => by cases hj)
  have hsup := count_nonSocket_eq_zero s.websockets ReleaseAction.closeSupervisor
    (fun j hj => by cases hj)
  have hsock := count_destroySocket_le_one s.websockets i hnd
  refine ⟨rfl, rfl, ?_, ?_, ?_, ?_⟩ <;>
    by_cases h2 : s.session <;>
      by_cases h3 : s.uiView <;>
        by_cases h4 : s.supervisor <;>
          simp_all [closeProxy, closeActions, List.count_append]

/- ## C8 -/

/-- C8 counterexample: the unaccepted method "BREW" is rejected through the
plain method-not-supported `Error`, which — not being a `Meteor.Error` — the
`requestHandler` catch clause turns into HTTP 500 Internal Server Error,
not a 4xx client error as the claim states. -/
theorem unsupportedMethod_status_500 :
    dispatchMethod "BREW" =
      Except.error (ProxyError.plainError
        ("Sandstorm only supports the following methods: GET, POST, PUT, PATCH, DELETE, HEAD, PROPFIND, PROPPATCH, MKCOL, COPY, MOVE, LOCK, UNLOCK, ACL, REPORT, and OPTIONS.")) ∧
    methodRejectionStatus "BREW" 0 = some 500 ∧
    ¬(400 ≤ 500 ∧ 500 ≤ 499) := by
  refine ⟨by decide, by decide, by omega⟩

/-- C8 (amended): for every HTTP method outside the accepted set, the
dispatch issues no session RPC — it throws the internal
"method not supported" plain error — and, because that error is not a
`Meteor.Error` and is not retriable, the client receives HTTP 500 Internal
Server Error (not a 4xx). -/
theorem unsupportedMethod_rejected_500 (method : String) (retryCount : Nat)
    (h : method ∉ acceptedMethods) :
    dispatchMethod method =
      Except.error (ProxyError.plainError
        ("Sandstorm only supports the following methods: GET, POST, PUT, PATCH, DELETE, HEAD, PROPFIND, PROPPATCH, MKCOL, COPY, MOVE, LOCK, UNLOCK, ACL, REPORT, and OPTIONS.")) ∧
    methodRejectionStatus method retryCount = some 500 := by
  simp only [acceptedMethods, List.mem_cons, List.not_mem_nil, or_false,
    not_or] at h
  obtain ⟨h1, h2, h3, h4, h5, h6, h7, h8, h9, h10, h11, h12, h13, h14, h15, h16⟩ := h
  constructor
  · simp [dispatchMethod, h1, h2, h3, h4, h5, h6, h7, h8, h9, h10, h11, h12,
      h13, h14, h15, h16]
  · simp [methodRejectionStatus, dispatchMethod, shouldRestartGrain,
      retriableError, errorStatus, h1, h2, h3, h4, h5, h6, h7, h8, h9, h10,
      h11, h12, h13, h14, h15, h16]

theorem unsupportedMethod_rejected_500_witness :
    ("BREW" : String) ∉ acceptedMethods ∧
    (dispatchMethod "BREW" =
      Except.error (ProxyError.plainError
        ("Sandstorm only supports the following methods: GET, POST, PUT, PATCH, DELETE, HEAD, PROPFIND, PROPPATCH, MKCOL, COPY, MOVE, LOCK, UNLOCK, ACL, REPORT, and OPTIONS.")) ∧
     methodRejectionStatus "BREW" 0 = some 500) :=
  ⟨by decide, unsupportedMethod_rejected_500 "BREW" 0 (by decide)⟩

theorem closeProxy_idempotent_releases_once_witness :
    ([5, 9] : List Nat).Nodup ∧
    ((closeProxy (closeProxy ⟨[5, 9], true, false, true⟩).1).1 =
        (closeProxy ⟨[5, 9], true, false, true⟩).1 ∧
     (closeProxy (closeProxy ⟨[5, 9], true, false, true⟩).1).2 = [] ∧
     (closeProxy ⟨[5, 9], true, false, true⟩).2.count
        (ReleaseAction.destroySocket 5) ≤ 1 ∧
     (closeProxy ⟨[5, 9], true, false, true⟩).2.count
        ReleaseAction.closeSession ≤ 1 ∧
     (closeProxy ⟨[5, 9], true, false, true⟩).2.count
        ReleaseAction.closeUiView ≤ 1 ∧
     (closeProxy ⟨[5, 9], true, false, true⟩).2.count
        ReleaseAction.closeSupervisor ≤ 1) :=
  ⟨by decide, closeProxy_idempotent_releases_once ⟨[5, 9], true, false, true⟩ 5 (by decide)⟩

end Sandstorm
